import Mathlib

/-!
# Verification of the tonic-rustls connection-acceptance and transport-security layer

Shallow embedding of the repository's core components:

* `handle_tcp_accept_error` (src/server/incoming.rs) — triage of source-level
  accept errors into "continue" vs "fatal".
* `TlsAcceptor` (src/server/service/tls.rs) — server-side session negotiator.
* `TlsConnector` (src/channel/service/tls.rs) — client-side session negotiator.
* the secure-mode accept multiplexer `tcp_incoming` / `select`
  (src/server/incoming.rs) — modelled as an explicit step function over a
  multiplexer state, driven by a scheduler choice sequence that resolves the
  nondeterminism of `tokio::select!` and of `JoinSet::join_next`.
* `RecoverError` / `ResponseFuture` / `MaybeEmptyBody`
  (src/server/service/recover_error.rs) — the error-recovery boundary adapter.

Machine-level details that the claims do not touch (socket options, the
cryptographic handshake internals) are treated as black boxes: a handshake is
represented by its observable outcome.
-/

namespace TonicRustls

/-- The HTTP/2 ALPN token, `ALPN_H2` in src/service/mod.rs (`b"h2"`).
Protocol byte strings are modelled as Lean strings. -/
def ALPN_H2 : String := "h2"

/-! ## Accept-error triage (src/server/incoming.rs, `handle_tcp_accept_error`) -/

/-- The `std::io::ErrorKind` values the triage function inspects, plus
representatives of every other kind (the match is on exactly six kinds, so all
remaining kinds behave alike; a few are listed to have concrete inputs). -/
inductive IoErrorKind
  | connectionAborted
  | connectionReset
  | brokenPipe
  | interrupted
  | wouldBlock
  | timedOut
  | notFound
  | permissionDenied
  | addrInUse
  | outOfMemory
  | otherKind
  deriving DecidableEq, Repr

/-- A source-level accept error (`crate::BoxError`): either it downcasts to a
`std::io::Error` (carrying its kind) or it is some other boxed error. -/
inductive AcceptError
  | ioError (kind : IoErrorKind) (msg : String)
  | otherError (msg : String)
  deriving DecidableEq, Repr

/-- `std::ops::ControlFlow<crate::BoxError>` as used by the triage function. -/
inductive AcceptControlFlow
  | cont
  | brk (e : AcceptError)
  deriving DecidableEq, Repr

/-- The six transient kinds matched by `handle_tcp_accept_error`. -/
def transientKind (k : IoErrorKind) : Bool :=
  match k with
  | .connectionAborted => true
  | .connectionReset => true
  | .brokenPipe => true
  | .interrupted => true
  | .wouldBlock => true
  | .timedOut => true
  | _ => false

/-- src/server/incoming.rs lines 95–113: downcast to `io::Error`; if the kind
is one of the six transient kinds return `Continue(())`, otherwise
`Break(e)` with the original error. -/
def handle_tcp_accept_error (e : AcceptError) : AcceptControlFlow :=
  match e with
  | .ioError k _ => if transientKind k then .cont else .brk e
  | .otherError _ => .brk e

/-! ## Sessions and the server-side negotiator (src/server/service/tls.rs) -/

/-- The observable outcome of a completed rustls session that this layer
inspects: the ALPN protocol the handshake agreed on (`None` when the peer
completed the handshake without negotiating any protocol). -/
structure TlsSession where
  alpnProtocol : Option String
  deriving DecidableEq, Repr

/-- `rustls::ServerConfig`, restricted to the field this layer touches:
the ALPN protocol-offer list. -/
structure ServerConfig where
  alpnProtocols : List String
  deriving DecidableEq, Repr

/-- Server-side acceptor: an immutable, shared (`Arc`) server configuration. -/
structure TlsAcceptor where
  inner : ServerConfig
  deriving DecidableEq, Repr

/-- src/server/service/tls.rs lines 14–20: push `ALPN_H2` onto the
caller-supplied config's `alpn_protocols`, then wrap in `Arc`. -/
def TlsAcceptor.new (config : ServerConfig) : Except String TlsAcceptor :=
  .ok { inner := { alpnProtocols := config.alpnProtocols ++ [ALPN_H2] } }

/-- src/server/service/tls.rs lines 22–28: run the black-box rustls handshake
and return its result with the error converted (`map_err(Into::into)`).
The handshake outcome is the input; `accept` adds no policy of its own. -/
def TlsAcceptor.accept (_a : TlsAcceptor) (handshake : Except String TlsSession) :
    Except String TlsSession :=
  match handshake with
  | .ok session => .ok session
  | .error e => .error e

/-! ## Client-side negotiator (src/channel/service/tls.rs) -/

/-- `rustls::ClientConfig`, restricted to the ALPN protocol-offer list. -/
structure ClientConfig where
  alpnProtocols : List String
  deriving DecidableEq, Repr

/-- A parsed `rustls::pki_types::ServerName`. -/
structure ServerName where
  name : String
  deriving DecidableEq, Repr

/-- Characters admitted by the DNS-name model below. -/
def validDnsChar (c : Char) : Bool :=
  c.isAlphanum || c = '-' || c = '.'

/-- Modelled from the spec: the external peer-identity parser
(`ServerName::try_from` of the rustls pki-types crate, a black-box
collaborator; spec §4.1 "malformed identity values fail immediately").
Modelled as a syntactic check: a name is well-formed when it is nonempty and
uses only alphanumeric characters, hyphens and dots. -/
def ServerName.tryFrom (domain : String) : Option ServerName :=
  if domain.data ≠ [] ∧ domain.data.all validDnsChar = true then some ⟨domain⟩
  else none

/-- Client-side connector state (src/channel/service/tls.rs lines 14–19). -/
structure TlsConnector where
  config : ClientConfig
  domain : ServerName
  assume_http2 : Bool
  deriving DecidableEq, Repr

/-- src/channel/service/tls.rs lines 22–34: push `ALPN_H2` onto the config's
offer list, parse the domain with `ServerName::try_from(domain)?` (failure
propagates synchronously as a construction error, before any I/O), and store
the `assume_http2` flag. -/
def TlsConnector.new (config : ClientConfig) (domain : String)
    (assume_http2 : Bool) : Except String TlsConnector :=
  match ServerName.tryFrom domain with
  | none => .error "invalid DNS name"
  | some d =>
    .ok { config := { alpnProtocols := config.alpnProtocols ++ [ALPN_H2] },
          domain := d, assume_http2 := assume_http2 }

/-- The type-erased transport the client connector produces on success. -/
structure BoxedIo where
  session : TlsSession
  deriving DecidableEq, Repr

/-- src/channel/service/tls.rs lines 36–52: run the black-box handshake; on
completion read the negotiated ALPN protocol and apply the policy
`!(alpn_protocol == Some(ALPN_H2) || self.assume_http2)` → error
"HTTP/2 was not negotiated"; otherwise wrap the session. -/
def TlsConnector.connect (c : TlsConnector) (handshake : Except String TlsSession) :
    Except String BoxedIo :=
  match handshake with
  | .error e => .error e
  | .ok session =>
    if !(session.alpnProtocol == some ALPN_H2 || c.assume_http2) then
      .error "HTTP/2 was not negotiated"
    else
      .ok { session := session }

/-! ## The secure-mode accept multiplexer (src/server/incoming.rs, `tcp_incoming`/`select`)

The `async_stream::try_stream!` loop is modelled as an explicit step function.
Connections are identified by a `ConnId`; the black-box outcome of the spawned
handshake task for a connection is supplied by an oracle
`outcome : ConnId → TaskResult`.  The nondeterminism of `tokio::select!`
(which ready branch wins) and of `JoinSet::join_next` (which completed task is
returned) is resolved by a scheduler-supplied `Choice` per loop iteration; a
run of the loop is determined by a list of choices. -/

/-- Identity of one raw connection handed over by the listener. -/
abbrev ConnId := Nat

/-- `ServerIo<IO>`: the transport envelope yielded to the dispatch layer,
built by `ServerIo::new_io` (plain) or `ServerIo::new_tls_io` (negotiated). -/
inductive ServerIo
  | newIo (c : ConnId)
  | newTlsIo (c : ConnId)
  deriving DecidableEq, Repr

/-- Outcome of one spawned handshake task, as observed through
`JoinSet::join_next`: the task ran to completion with `Ok(io)`, it ran to
completion with a handshake error `Err(e)`, or the join itself failed
(the task panicked or was cancelled). -/
inductive TaskResult
  | success
  | handshakeError (msg : String)
  | joinError (msg : String)
  deriving DecidableEq, Repr

/-- The `crate::BoxError` values that can flow to the output stream or the
`TlsErr` branch, tagged by origin: a source-level accept error, a handshake
error returned by a task, or a failure of the task join itself. -/
inductive StreamError
  | tcp (e : AcceptError)
  | tlsHandshake (msg : String)
  | tlsJoin (msg : String)
  deriving DecidableEq, Repr

/-- One item of the output stream: `Result<ServerIo, crate::BoxError>`. -/
abbrev OutItem := Except StreamError ServerIo

/-- `SelectOutput<A>` (src/server/incoming.rs lines 150–157). -/
inductive SelectOutput
  | incoming (c : ConnId)
  | io (i : ServerIo)
  | tcpErr (e : AcceptError)
  | tlsErr (e : StreamError)
  | done
  deriving DecidableEq, Repr

deriving instance DecidableEq for Except

/-- Multiplexer state: the not-yet-consumed prefix of the raw-connection
source, and the pool of in-flight handshake tasks (the `JoinSet`, as the list
of connection ids whose tasks have not yet been joined). -/
structure MuxState where
  incoming : List (Except AcceptError ConnId)
  tasks : List ConnId
  deriving DecidableEq, Repr

/-- The scheduler's resolution of one `select` call: either the incoming
branch wins, or the task-completion branch wins with (an index selecting)
some in-flight task that completed. -/
inductive Choice
  | fromIncoming
  | fromTask (i : Nat)
  deriving DecidableEq, Repr

/-- `JoinSet::join_next` resolving with task `i` (index taken mod the pool
size): `none` exactly when the pool is empty — the case the source guards
with `expect("JoinSet should never end")`. -/
def joinNext (tasks : List ConnId) (i : Nat) : Option (ConnId × List ConnId) :=
  if h : tasks.length = 0 then none
  else
    let j : Fin tasks.length := ⟨i % tasks.length, Nat.mod_lt _ (Nat.pos_of_ne_zero h)⟩
    some (tasks.get j, tasks.eraseIdx j.val)

/-- The `match` on `incoming.try_next()`: next source item, or `Done` when
the source is exhausted. -/
def incomingNext (st : MuxState) : SelectOutput × MuxState :=
  match st.incoming with
  | [] => (.done, st)
  | .ok c :: rest => (.incoming c, { st with incoming := rest })
  | .error e :: rest => (.tcpErr e, { st with incoming := rest })

/-- The `match` on a joined task's result (src/server/incoming.rs lines
141–145): `Ok(Ok(io))` → `Io`, `Ok(Err(e))` → `TlsErr`, `Err(e)` → `TlsErr`.
A successful task yields `ServerIo::new_tls_io` for its connection. -/
def taskToSelect (outcome : ConnId → TaskResult) (c : ConnId) : SelectOutput :=
  match outcome c with
  | .success => .io (ServerIo.newTlsIo c)
  | .handshakeError m => .tlsErr (.tlsHandshake m)
  | .joinError m => .tlsErr (.tlsJoin m)

/-- src/server/incoming.rs lines 116–148, `select`: when the task pool is
empty only the source is awaited; otherwise `tokio::select!` races the two,
and the scheduler's `Choice` picks the winner.  Returns `none` exactly when
the code would hit the `expect("JoinSet should never end")` panic. -/
def select (outcome : ConnId → TaskResult) (st : MuxState) (ch : Choice) :
    Option (SelectOutput × MuxState) :=
  if st.tasks.isEmpty then
    some (incomingNext st)
  else
    match ch with
    | .fromIncoming => some (incomingNext st)
    | .fromTask i =>
      match joinNext st.tasks i with
      | none => none
      | some (c, rest) => some (taskToSelect outcome c, { st with tasks := rest })

/-- The body of the `loop` in `tcp_incoming` (src/server/incoming.rs lines
59–91), acting on one `SelectOutput`: returns the items yielded during this
iteration and `some` next state, or `none` when the stream ends (`break`, or
`Err(e)?` after yielding the fatal error).  `secure` is whether `tls` is
`Some` (secure mode) or `None`. -/
def loopBody (secure : Bool) (so : SelectOutput) (st : MuxState) :
    List OutItem × Option MuxState :=
  match so with
  | .incoming c =>
    if secure then ([], some { st with tasks := st.tasks ++ [c] })
    else ([.ok (ServerIo.newIo c)], some st)
  | .io i => ([.ok i], some st)
  | .tcpErr e =>
    match handle_tcp_accept_error e with
    | .cont => ([], some st)
    | .brk e2 => ([.error (.tcp e2)], none)
  | .tlsErr _ => ([], some st)
  | .done => ([], none)

/-- One full loop iteration: `select`, then the loop body.  `none` models the
`expect` panic inside `select`. -/
def step (outcome : ConnId → TaskResult) (secure : Bool) (st : MuxState)
    (ch : Choice) : Option (List OutItem × Option MuxState) :=
  match select outcome st ch with
  | none => none
  | some (so, st2) => some (loopBody secure so st2)

/-- How a run of the loop ended: the stream terminated (by `break` or a fatal
error), the scheduler's choice list ran out with the loop still live in the
given state, or the `expect` panic fired. -/
inductive RunEnd
  | terminated
  | fuelOut (st : MuxState)
  | panicked
  deriving DecidableEq, Repr

/-- Whether a run ended in the panic branch. -/
def RunEnd.isPanicked : RunEnd → Bool
  | .panicked => true
  | _ => false

/-- A run of the multiplexer loop under a schedule: the concatenated output
stream and how the run ended. -/
def run (outcome : ConnId → TaskResult) (secure : Bool) :
    List Choice → MuxState → List OutItem × RunEnd
  | [], st => ([], .fuelOut st)
  | ch :: rest, st =>
    match step outcome secure st ch with
    | none => ([], .panicked)
    | some (out, none) => (out, .terminated)
    | some (out, some st2) =>
      let r := run outcome secure rest st2
      (out ++ r.1, r.2)

/-- Shapes an output-stream item can take: a plain envelope, a negotiated
envelope, or a fatal source-level error.  Handshake and join errors never
appear. -/
def benignItem (o : OutItem) : Prop :=
  (∃ c, o = .ok (ServerIo.newIo c)) ∨ (∃ c, o = .ok (ServerIo.newTlsIo c)) ∨
    (∃ e, o = .error (StreamError.tcp e))

/-! ## Error-recovery boundary adapter (src/server/service/recover_error.rs) -/

/-- A gRPC `Status`: a structured failure code plus message. -/
structure Status where
  code : Nat
  message : String
  deriving DecidableEq, Repr

/-- The `crate::BoxError` values the adapter sees from the inner service:
either the boxed error is (or wraps) a `Status`, or it is some other error. -/
inductive SvcError
  | status (s : Status)
  | other (msg : String)
  deriving DecidableEq, Repr

/-- Modelled from the spec: tonic's `Status::try_from_error` (an external
collaborator of src/server/service/recover_error.rs) — convert the boxed
error into a `Status` when it carries one, otherwise give the error back. -/
def Status.tryFromError : SvcError → Except SvcError Status
  | .status s => .ok s
  | .other m => .error (.other m)

/-- An `http::HeaderMap`, as an association list. -/
structure HeaderMap where
  entries : List (String × String)
  deriving DecidableEq, Repr

/-- Modelled from the spec: tonic's `Status::add_header` (external
collaborator) — record the status code and message as transport-level
metadata on the response headers. -/
def Status.addHeader (s : Status) (h : HeaderMap) : HeaderMap :=
  { entries := h.entries ++
      [("grpc-status", toString s.code), ("grpc-message", s.message)] }

/-- An `http::Response`, restricted to what the adapter touches. -/
structure Response (B : Type) where
  headers : HeaderMap
  body : B
  deriving DecidableEq, Repr

/-- `Response::map`: transform the body, keep the headers. -/
def Response.mapBody {A B : Type} (r : Response A) (f : A → B) : Response B :=
  { headers := r.headers, body := f r.body }

/-- `MaybeEmptyBody<B>` (src/server/service/recover_error.rs lines 79–93):
either a real inner body or the explicit "empty" marker (`inner: None`). -/
structure MaybeEmptyBody (B : Type) where
  inner : Option B
  deriving DecidableEq, Repr

/-- `MaybeEmptyBody::full`. -/
def MaybeEmptyBody.full {B : Type} (b : B) : MaybeEmptyBody B := ⟨some b⟩

/-- `MaybeEmptyBody::empty`. -/
def MaybeEmptyBody.emptyBody {B : Type} : MaybeEmptyBody B := ⟨none⟩

/-- An `http_body::SizeHint`: lower bound and optional upper bound. -/
structure SizeHint where
  lower : Nat
  upper : Option Nat
  deriving DecidableEq, Repr

/-- `SizeHint::with_exact`. -/
def SizeHint.withExact (n : Nat) : SizeHint := ⟨n, some n⟩

/-- The inner body's own `http_body::Body` behaviour, as the adapter is
generic over `B`: its `is_end_stream` and `size_hint` methods. -/
structure BodyOps (B : Type) where
  is_end_stream : B → Bool
  size_hint : B → SizeHint

/-- `MaybeEmptyBody::is_end_stream` (lines 112–117): delegate to the inner
body when present, report end-of-stream immediately when empty. -/
def MaybeEmptyBody.is_end_stream {B : Type} (ops : BodyOps B) :
    MaybeEmptyBody B → Bool
  | ⟨some b⟩ => ops.is_end_stream b
  | ⟨none⟩ => true

/-- `MaybeEmptyBody::size_hint` (lines 119–124): delegate when present,
report exact size 0 when empty. -/
def MaybeEmptyBody.size_hint {B : Type} (ops : BodyOps B) :
    MaybeEmptyBody B → SizeHint
  | ⟨some b⟩ => ops.size_hint b
  | ⟨none⟩ => SizeHint.withExact 0

/-- `ResponseFuture::poll` (src/server/service/recover_error.rs lines 58–77),
applied to the inner service's resolved outcome: a success passes through
with the body wrapped as `full`; an error convertible to a `Status` becomes a
success response with the status recorded in the headers of a fresh response
and the explicit empty body; an unconvertible error is propagated. -/
def ResponseFuture.poll {B : Type} (result : Except SvcError (Response B)) :
    Except SvcError (Response (MaybeEmptyBody B)) :=
  match result with
  | .ok response => .ok (response.mapBody MaybeEmptyBody.full)
  | .error err =>
    match Status.tryFromError err with
    | .ok status =>
      .ok { headers := status.addHeader ⟨[]⟩, body := MaybeEmptyBody.emptyBody }
    | .error err2 => .error err2

/-! ## Helper lemmas about the multiplexer -/

/-- `select` never resolves to the panic marker: the task-completion branch
is only consulted when the pool is nonempty, where `joinNext` always
produces a task. -/
theorem select_isSome (outcome : ConnId → TaskResult) (st : MuxState)
    (ch : Choice) : (select outcome st ch).isSome = true := by
  unfold select
  cases h : st.tasks.isEmpty with
  | true => simp
  | false =>
    cases ch with
    | fromIncoming => simp
    | fromTask i =>
      have hne : st.tasks.length ≠ 0 := by
        intro hlen
        rw [List.length_eq_zero] at hlen
        rw [hlen] at h
        simp at h
      simp [joinNext, hne]

/-- Every item a single loop-body application emits is benign. -/
theorem loopBody_output_benign (secure : Bool) (so : SelectOutput)
    (st : MuxState) (o : OutItem) (ho : o ∈ (loopBody secure so st).1) :
    benignItem o := by
  cases so with
  | incoming c =>
    cases secure with
    | true => simp [loopBody] at ho
    | false =>
      simp [loopBody] at ho
      exact Or.inl ⟨c, ho⟩
  | io i =>
    simp [loopBody] at ho
    cases i with
    | newIo c => exact Or.inl ⟨c, ho⟩
    | newTlsIo c => exact Or.inr (Or.inl ⟨c, ho⟩)
  | tcpErr e =>
    cases he : handle_tcp_accept_error e with
    | cont => simp [loopBody, he] at ho
    | brk e2 =>
      simp [loopBody, he] at ho
      exact Or.inr (Or.inr ⟨e2, ho⟩)
  | tlsErr e => simp [loopBody] at ho
  | done => simp [loopBody] at ho

/-- Every item a full step emits is benign. -/
theorem step_output_benign (outcome : ConnId → TaskResult) (secure : Bool)
    (st : MuxState) (ch : Choice) (out : List OutItem)
    (ost : Option MuxState) (hs : step outcome secure st ch = some (out, ost))
    (o : OutItem) (ho : o ∈ out) : benignItem o := by
  unfold step at hs
  cases hsel : select outcome st ch with
  | none => rw [hsel] at hs; exact absurd hs (by simp)
  | some p =>
    rw [hsel] at hs
    simp at hs
    have hb : (loopBody secure p.1 p.2).1 = out := by rw [hs]
    exact loopBody_output_benign secure p.1 p.2 o (hb ▸ ho)

/-- Every item of an entire run's output stream is benign. -/
theorem run_output_benign (outcome : ConnId → TaskResult) (secure : Bool) :
    ∀ (sched : List Choice) (st : MuxState) (o : OutItem),
      o ∈ (run outcome secure sched st).1 → benignItem o := by
  intro sched
  induction sched with
  | nil => intro st o ho; simp [run] at ho
  | cons ch rest ih =>
    intro st o ho
    unfold run at ho
    cases hs : step outcome secure st ch with
    | none => rw [hs] at ho; simp at ho
    | some p =>
      obtain ⟨out, ost⟩ := p
      cases ost with
      | none =>
        rw [hs] at ho
        simp at ho
        exact step_output_benign outcome secure st ch out none hs o ho
      | some st2 =>
        rw [hs] at ho
        simp at ho
        cases ho with
        | inl h => exact step_output_benign outcome secure st ch out (some st2) hs o h
        | inr h => exact ih st2 o h

/-- A run never ends in the panic branch. -/
theorem run_not_panicked (outcome : ConnId → TaskResult) (secure : Bool) :
    ∀ (sched : List Choice) (st : MuxState),
      ((run outcome secure sched st).2).isPanicked = false := by
  intro sched
  induction sched with
  | nil => intro st; simp [run, RunEnd.isPanicked]
  | cons ch rest ih =>
    intro st
    unfold run
    cases hs : step outcome secure st ch with
    | none =>
      have := select_isSome outcome st ch
      unfold step at hs
      cases hsel : select outcome st ch with
      | none => rw [hsel] at this; simp at this
      | some p => rw [hsel] at hs; simp at hs
    | some p =>
      obtain ⟨out, ost⟩ := p
      cases ost with
      | none => simp [RunEnd.isPanicked]
      | some st2 => simpa using ih st2

/-! ## Claim theorems -/

/-- C4: the accept-error triage is a pure function returning `Continue`
exactly for I/O errors of the six transient kinds (connection-aborted,
connection-reset, broken-pipe, interrupted, would-block, timed-out), and
`Break` carrying the error itself for every other error. -/
theorem c4_error_triage (e : AcceptError) :
    (handle_tcp_accept_error e = AcceptControlFlow.cont ↔
      ∃ k msg, e = AcceptError.ioError k msg ∧
        (k = IoErrorKind.connectionAborted ∨ k = IoErrorKind.connectionReset ∨
         k = IoErrorKind.brokenPipe ∨ k = IoErrorKind.interrupted ∨
         k = IoErrorKind.wouldBlock ∨ k = IoErrorKind.timedOut)) ∧
    (handle_tcp_accept_error e = AcceptControlFlow.cont ∨
      handle_tcp_accept_error e = AcceptControlFlow.brk e) := by
  obtain ⟨k, msg⟩ | msg := e
  · cases k <;> simp [handle_tcp_accept_error, transientKind]
  · simp [handle_tcp_accept_error]

/-- C2 counterexample: a server-side handshake that completed with negotiated
protocol "http/1.1" (not "h2") is returned by `TlsAcceptor::accept` as a
usable session — no protocol-policy error — and, in the multiplexer, the
successful task is yielded on the output stream as a usable envelope. -/
theorem c2_counterexample :
    TlsAcceptor.accept ⟨⟨[ALPN_H2]⟩⟩ (Except.ok ⟨some "http/1.1"⟩) =
      Except.ok ⟨some "http/1.1"⟩ ∧
    run (fun _ => TaskResult.success) true
        [Choice.fromIncoming, Choice.fromTask 0] ⟨[Except.ok 3], []⟩ =
      ([Except.ok (ServerIo.newTlsIo 3)], RunEnd.fuelOut ⟨[], []⟩) := by
  exact ⟨rfl, rfl⟩

/-- C2 amended: the server-side acceptor applies no protocol-policy check at
all — `accept` returns the black-box handshake outcome unchanged, so every
successfully completed handshake is yielded as a usable envelope regardless
of the negotiated protocol. -/
theorem c2_amended_no_server_policy (a : TlsAcceptor)
    (hs : Except String TlsSession) : a.accept hs = hs := by
  cases hs <;> rfl

/-- C3 counterexample: a connector constructed with the override flag
(`assume_http2 = true`) accepts a handshake that negotiated "http/1.1"
(present but different from "h2") and yields a usable transport, instead of
rejecting it as the claim demands. -/
theorem c3_counterexample :
    TlsConnector.new ⟨[]⟩ "example.com" true =
      Except.ok { config := ⟨[ALPN_H2]⟩, domain := ⟨"example.com"⟩,
                  assume_http2 := true } ∧
    TlsConnector.connect
        { config := ⟨[ALPN_H2]⟩, domain := ⟨"example.com"⟩,
          assume_http2 := true }
        (Except.ok ⟨some "http/1.1"⟩) =
      Except.ok ⟨⟨some "http/1.1"⟩⟩ := by
  exact ⟨by decide, by decide⟩

/-- C3 amended: for a completed client-side handshake, `connect` yields a
usable transport if and only if the negotiated protocol equals "h2" or the
override flag `assume_http2` was set — the flag bypasses the check entirely,
including for a present-but-different negotiated protocol. -/
theorem c3_amended_client_policy (c : TlsConnector) (s : TlsSession) :
    (c.connect (Except.ok s)).isOk = true ↔
      (s.alpnProtocol = some ALPN_H2 ∨ c.assume_http2 = true) := by
  unfold TlsConnector.connect
  by_cases h : s.alpnProtocol = some ALPN_H2
  · simp [h, Except.isOk, Except.toBool]
  · cases hf : c.assume_http2 <;> simp [h, hf, Except.isOk, Except.toBool]

/-- C1 counterexample: the source is exhausted while one handshake task is in
flight and that handshake succeeds, yet the run terminates with an empty
output stream — the in-flight connection is silently dropped, because
observing source exhaustion makes `select` return `Done` and the loop
`break`s at once instead of draining the pool. -/
theorem c1_counterexample :
    run (fun _ => TaskResult.success) true [Choice.fromIncoming]
        ⟨[], [0]⟩ = ([], RunEnd.terminated) := by
  rfl

/-- C1 amended: when the raw-connection source is exhausted, the multiplexer
terminates as soon as the exhaustion is observed by the select step,
regardless of how many upgrade tasks are still in flight; those tasks are
dropped without being yielded.  In-flight completions appear on the output
only if the scheduler selects them before exhaustion is observed. -/
theorem c1_amended_terminate_on_exhaustion (outcome : ConnId → TaskResult)
    (secure : Bool) (st : MuxState) (sched : List Choice)
    (hinc : st.incoming = []) :
    run outcome secure (Choice.fromIncoming :: sched) st =
      ([], RunEnd.terminated) := by
  unfold run step
  by_cases h : st.tasks.isEmpty <;>
    simp [select, h, incomingNext, hinc, loopBody]

/-- C1 amended witness: a concrete exhausted source with two in-flight tasks,
terminating immediately with an empty output. -/
theorem c1_amended_terminate_on_exhaustion_witness :
    run (fun _ => TaskResult.success) true
        (Choice.fromIncoming :: [Choice.fromTask 0]) ⟨[], [5, 7]⟩ =
      ([], RunEnd.terminated) :=
  c1_amended_terminate_on_exhaustion (fun _ => TaskResult.success) true
    ⟨[], [5, 7]⟩ [Choice.fromTask 0] rfl

/-- C5: a completed in-flight upgrade that resolved to a handshake error is
handled at connection scope — the loop body emits nothing and continues in
the same state — and no run of the multiplexer ever carries a handshake
error on its output stream. -/
theorem c5_handshake_error_isolated :
    (∀ (secure : Bool) (st : MuxState) (e : StreamError),
        loopBody secure (SelectOutput.tlsErr e) st = ([], some st)) ∧
    (∀ (outcome : ConnId → TaskResult) (secure : Bool) (sched : List Choice)
        (st : MuxState) (m : String),
        ((run outcome secure sched st).1).count
          (Except.error (StreamError.tlsHandshake m)) = 0) := by
  constructor
  · intro secure st e; rfl
  · intro outcome secure sched st m
    rw [List.count_eq_zero]
    intro hmem
    have hb := run_output_benign outcome secure sched st _ hmem
    rcases hb with ⟨c, hc⟩ | ⟨c, hc⟩ | ⟨e, he⟩ <;> simp_all

/-- C9: the `expect("JoinSet should never end")` branch is unreachable — the
task-completion branch is consulted only when the pool is nonempty, so
`select` always resolves, and no run of the control loop ever ends in the
panic state. -/
theorem c9_join_panic_unreachable :
    (∀ (outcome : ConnId → TaskResult) (st : MuxState) (ch : Choice),
        (select outcome st ch).isSome = true) ∧
    (∀ (outcome : ConnId → TaskResult) (secure : Bool) (sched : List Choice)
        (st : MuxState),
        ((run outcome secure sched st).2).isPanicked = false) := by
  exact ⟨select_isSome, run_not_panicked⟩

/-- C10: a failure of the spawned task itself (a join error, as opposed to a
task returning a handshake error) is mapped to the connection-scoped
`TlsErr` case; the loop body then emits nothing and continues, and no run
ever carries a join error on its output stream. -/
theorem c10_join_error_connection_scoped :
    (∀ (outcome : ConnId → TaskResult) (c : ConnId) (m : String),
        outcome c = TaskResult.joinError m →
        taskToSelect outcome c = SelectOutput.tlsErr (StreamError.tlsJoin m)) ∧
    (∀ (secure : Bool) (st : MuxState) (e : StreamError),
        loopBody secure (SelectOutput.tlsErr e) st = ([], some st)) ∧
    (∀ (outcome : ConnId → TaskResult) (secure : Bool) (sched : List Choice)
        (st : MuxState) (m : String),
        ((run outcome secure sched st).1).count
          (Except.error (StreamError.tlsJoin m)) = 0) := by
  refine ⟨?_, ?_, ?_⟩
  · intro outcome c m hc
    unfold taskToSelect
    rw [hc]
  · intro secure st e; rfl
  · intro outcome secure sched st m
    rw [List.count_eq_zero]
    intro hmem
    have hb := run_output_benign outcome secure sched st _ hmem
    rcases hb with ⟨c, hc⟩ | ⟨c, hc⟩ | ⟨e, he⟩ <;> simp_all

/-- C10 witness: the first conjunct applied to the concrete oracle in which
task 4 fails with a join error (panic/cancellation). -/
theorem c10_join_error_connection_scoped_witness :
    taskToSelect (fun _ => TaskResult.joinError "task panicked") 4 =
      SelectOutput.tlsErr (StreamError.tlsJoin "task panicked") :=
  c10_join_error_connection_scoped.1 (fun _ => TaskResult.joinError "task panicked")
    4 "task panicked" rfl

/-- C6: constructing either security context appends the "h2" token to the
caller-supplied configuration's protocol-offer list exactly once — the new
list is the old list with "h2" appended, so the token is present afterwards
regardless of the caller's configuration, and its multiplicity grows by
exactly one. -/
theorem c6_alpn_offer_invariant :
    (∀ (config : ServerConfig), ∃ a,
        TlsAcceptor.new config = Except.ok a ∧
        a.inner.alpnProtocols = config.alpnProtocols ++ [ALPN_H2] ∧
        ALPN_H2 ∈ a.inner.alpnProtocols ∧
        a.inner.alpnProtocols.count ALPN_H2 =
          config.alpnProtocols.count ALPN_H2 + 1) ∧
    (∀ (config : ClientConfig) (domain : String) (flag : Bool)
        (conn : TlsConnector),
        TlsConnector.new config domain flag = Except.ok conn →
        conn.config.alpnProtocols = config.alpnProtocols ++ [ALPN_H2] ∧
        ALPN_H2 ∈ conn.config.alpnProtocols ∧
        conn.config.alpnProtocols.count ALPN_H2 =
          config.alpnProtocols.count ALPN_H2 + 1) := by
  constructor
  · intro config
    refine ⟨_, rfl, rfl, ?_, ?_⟩
    · simp
    · simp
  · intro config domain flag conn hok
    unfold TlsConnector.new at hok
    cases hparse : ServerName.tryFrom domain with
    | none => rw [hparse] at hok; exact absurd hok (by simp)
    | some d =>
      rw [hparse] at hok
      have hconn : conn.config.alpnProtocols =
          config.alpnProtocols ++ [ALPN_H2] := by
        have hc := (Except.ok.injEq _ _).mp hok.symm
        rw [hc]
      refine ⟨hconn, ?_, ?_⟩
      · rw [hconn]; simp
      · rw [hconn]; simp

/-- C6 witness: constructing a connector over a caller configuration that
offers "http/1.1"; the resulting offer list is the caller's list with "h2"
appended, contains "h2", and gained exactly one occurrence of it. -/
theorem c6_alpn_offer_invariant_witness :
    (TlsConnector.mk ⟨["http/1.1", "h2"]⟩ ⟨"example.com"⟩
        false).config.alpnProtocols = ["http/1.1"] ++ [ALPN_H2] ∧
    ALPN_H2 ∈ (TlsConnector.mk ⟨["http/1.1", "h2"]⟩ ⟨"example.com"⟩
        false).config.alpnProtocols :=
  have h := c6_alpn_offer_invariant.2 ⟨["http/1.1"]⟩ "example.com" false
    (TlsConnector.mk ⟨["http/1.1", "h2"]⟩ ⟨"example.com"⟩ false) (by decide)
  ⟨h.1, h.2.1⟩

/-- C7: constructing the client connector fails — synchronously, with the
configuration error, performing no handshake I/O — exactly when the supplied
peer-identity value is rejected by the identity parser; for every
well-formed identity, construction succeeds. -/
theorem c7_config_error_timing (config : ClientConfig) (domain : String)
    (flag : Bool) :
    ((TlsConnector.new config domain flag).isOk = true ↔
      (ServerName.tryFrom domain).isSome = true) ∧
    (ServerName.tryFrom domain = none →
      TlsConnector.new config domain flag = Except.error "invalid DNS name") := by
  constructor
  · unfold TlsConnector.new
    cases hparse : ServerName.tryFrom domain <;>
      simp [Except.isOk, Except.toBool]
  · intro hnone
    unfold TlsConnector.new
    rw [hnone]

/-- C7 witness: the malformed identity "bad host" (contains a space) makes
construction fail with the configuration error; the well-formed identity
"example.com" makes it succeed. -/
theorem c7_config_error_timing_witness :
    TlsConnector.new ⟨[]⟩ "bad host" true = Except.error "invalid DNS name" ∧
    (TlsConnector.new ⟨[]⟩ "example.com" true).isOk = true :=
  ⟨(c7_config_error_timing ⟨[]⟩ "bad host" true).2 (by decide),
   (c7_config_error_timing ⟨[]⟩ "example.com" true).1.mpr (by decide)⟩

/-- C8: the error-recovery adapter passes a successful response through with
its body wrapped as explicitly full; an error convertible to a `Status`
becomes a success response whose headers carry the status code and message
and whose body is the explicit empty marker — which reports end-of-stream
immediately and exact size 0, yet is distinguishable from a zero-length real
body through the marker itself; an unconvertible error is propagated. -/
theorem c8_recover_error_adapter :
    (∀ (B : Type) (resp : Response B),
        ResponseFuture.poll (Except.ok resp) =
          Except.ok (resp.mapBody MaybeEmptyBody.full)) ∧
    (∀ (B : Type) (s : Status),
        (ResponseFuture.poll (Except.error (SvcError.status s)) :
            Except SvcError (Response (MaybeEmptyBody B))) =
          Except.ok { headers := ⟨[("grpc-status", toString s.code),
                                   ("grpc-message", s.message)]⟩,
                      body := MaybeEmptyBody.emptyBody }) ∧
    (∀ (B : Type) (m : String),
        (ResponseFuture.poll (Except.error (SvcError.other m)) :
            Except SvcError (Response (MaybeEmptyBody B))) =
          Except.error (SvcError.other m)) ∧
    (∀ (B : Type) (ops : BodyOps B),
        MaybeEmptyBody.is_end_stream ops MaybeEmptyBody.emptyBody = true ∧
        MaybeEmptyBody.size_hint ops MaybeEmptyBody.emptyBody =
          SizeHint.withExact 0) ∧
    (∀ (B : Type) (b : B),
        (MaybeEmptyBody.emptyBody : MaybeEmptyBody B).inner = none ∧
        (MaybeEmptyBody.full b).inner = some b) := by
  refine ⟨?_, ?_, ?_, ?_, ?_⟩
  · intro B resp; rfl
  · intro B s; rfl
  · intro B m; rfl
  · intro B ops; exact ⟨rfl, rfl⟩
  · intro B b; exact ⟨rfl, rfl⟩

end TonicRustls
